import Mathlib

/-!
Verification development for the multi-day story writer script
(`test_agents/story_writer_openai_agent.py`).

The script is a straight-line orchestration: load configuration from the
environment, derive a start date, issue one storyboard model call plus one
model call per story day over a growing conversation transcript, and write
the accumulated document to a file once at the end.

The shallow embedding below models:
  * Python `datetime` values as a proleptic-Gregorian day number (`Int`,
    day 0 = 1970-01-01) plus a time of day; `timedelta(days = n)` is
    integer addition on the day number; `strftime` is implemented with the
    standard civil-from-days conversion.
  * the process environment as a function `String → Option String`
    (`os.getenv`, after `load_dotenv` has run);
  * Python `hash` on strings as an ambient function `String → Int`
    (CPython salts string hashes with a per-process seed, so the function
    is fixed within one interpreter process but varies across processes);
  * the network endpoints (`litellm.completion`, `client.responses.create`)
    as oracle functions from the request data to the response;
  * console printing is ignored (pure output, never read back).
-/

/-- A chat message, i.e. one Python dict `{"role": ..., "content": ...}`
as stored in `conversation_history`. -/
structure Message where
  role : String
  content : String
deriving DecidableEq, Repr

/-- Observable side effects of one story-writer run: each model invocation
(with the transcript it was given and the text it returned) and each write
of a file to durable storage. -/
inductive Event where
  | modelCall (transcript : List Message) (response : String)
  | fileWrite (path : String) (contents : String)
deriving DecidableEq, Repr

def Event.isModelCall : Event → Bool
  | .modelCall _ _ => true
  | .fileWrite _ _ => false

def Event.isFileWrite : Event → Bool
  | .modelCall _ _ => false
  | .fileWrite _ _ => true

/-- The configuration dict returned by `load_openai_config`. -/
structure Config where
  api_key : String
  model : String
  provider : String
  reasoning_effort : String
  verbosity : String
deriving DecidableEq, Repr

/-- A Python `datetime`: a day number (proleptic Gregorian, day 0 =
1970-01-01) together with a time of day.  `timedelta(days = n)` acts by
adding `n` to `day` and leaving the time of day unchanged. -/
structure PyDateTime where
  day : Int
  hour : Nat
  minute : Nat
  second : Nat
deriving DecidableEq, Repr

/-- Civil-from-days conversion (standard Gregorian algorithm): maps a day
number (0 = 1970-01-01) to `(year, month, day-of-month)`. -/
def civilFromDays (z : Int) : Int × Nat × Nat :=
  let zs := z + 719468
  let era := Int.fdiv zs 146097
  let doe := (zs - era * 146097).toNat
  let yoe := (doe - doe / 1460 + doe / 36524 - doe / 146096) / 365
  let y := (yoe : Int) + era * 400
  let doy := doe - (365 * yoe + yoe / 4 - yoe / 100)
  let mp := (5 * doy + 2) / 153
  let d := doy - (153 * mp + 2) / 5 + 1
  let m := if mp < 10 then mp + 3 else mp - 9
  (if m ≤ 2 then y + 1 else y, m, d)

/-- English month names, as produced by `strftime("%B")`. -/
def monthName : Nat → String
  | 1 => "January"
  | 2 => "February"
  | 3 => "March"
  | 4 => "April"
  | 5 => "May"
  | 6 => "June"
  | 7 => "July"
  | 8 => "August"
  | 9 => "September"
  | 10 => "October"
  | 11 => "November"
  | 12 => "December"
  | _ => ""

/-- English weekday names indexed from Sunday, as produced by
`strftime("%A")`. -/
def weekdayName : Nat → String
  | 0 => "Sunday"
  | 1 => "Monday"
  | 2 => "Tuesday"
  | 3 => "Wednesday"
  | 4 => "Thursday"
  | 5 => "Friday"
  | 6 => "Saturday"
  | _ => ""

/-- Two-digit zero padding, as in `strftime("%d")`, `%m`, `%H`, ... -/
def pad2 (n : Nat) : String :=
  if n < 10 then "0" ++ toString n else toString n

/-- `strftime("%B %d, %Y")` on a day number, e.g. `"July 05, 2025"`. -/
def strftime_BdY (day : Int) : String :=
  let c := civilFromDays day
  monthName c.2.1 ++ " " ++ pad2 c.2.2 ++ ", " ++ toString c.1

/-- `strftime("%A")` on a day number (day 0 = 1970-01-01, a Thursday). -/
def strftime_A (day : Int) : String :=
  weekdayName ((day + 4).emod 7).toNat

/-- `strftime("%B %d, %Y (%A)")` on a day number, e.g.
`"July 21, 2025 (Monday)"`. -/
def strftime_BdYA (day : Int) : String :=
  strftime_BdY day ++ " (" ++ strftime_A day ++ ")"

/-- `strftime("%Y-%m-%d %H:%M:%S")` on a datetime. -/
def strftime_iso (dt : PyDateTime) : String :=
  let c := civilFromDays dt.day
  toString c.1 ++ "-" ++ pad2 c.2.1 ++ "-" ++ pad2 c.2.2 ++ " " ++
    pad2 dt.hour ++ ":" ++ pad2 dt.minute ++ ":" ++ pad2 dt.second

/-- `strftime("%Y%m%d_%H%M%S")` on a datetime (the timestamp used in the
default output file name). -/
def strftime_compact (dt : PyDateTime) : String :=
  let c := civilFromDays dt.day
  toString c.1 ++ pad2 c.2.1 ++ pad2 c.2.2 ++ "_" ++
    pad2 dt.hour ++ pad2 dt.minute ++ pad2 dt.second

/-- Does the character list start with the pattern list? (helper for
substring containment). -/
def charsStartWith : List Char → List Char → Bool
  | _, [] => true
  | [], _ :: _ => false
  | c :: cs, p :: ps => c == p && charsStartWith cs ps

/-- Does the character list contain the pattern list as a contiguous run? -/
def charsContains (pat : List Char) : List Char → Bool
  | [] => charsStartWith [] pat
  | c :: cs => charsStartWith (c :: cs) pat || charsContains pat cs

/-- Python `pat in s` on strings: substring containment. -/
def str_contains (s pat : String) : Bool :=
  charsContains pat.data s.data

/-- Python `s.lower()` (ASCII case folding, which covers every model name
the script compares). -/
def py_lower (s : String) : String :=
  String.mk (s.data.map Char.toLower)

/-- Python `s.strip()`: drop leading and trailing whitespace. -/
def py_strip (s : String) : String :=
  String.mk (((s.data.dropWhile Char.isWhitespace).reverse.dropWhile
    Char.isWhitespace).reverse)

/-- Python truthiness of an optional string (`os.getenv` result): `None`
and the empty string are falsy. -/
def truthyStr : Option String → Bool
  | none => false
  | some s => !(s == "")

/-- Tail of a Python integer literal after its first digit: digits with
single underscores allowed between digits only. -/
def py_digit_tail : List Char → Bool
  | [] => true
  | ['_'] => false
  | '_' :: c :: rest => c.isDigit && py_digit_tail rest
  | c :: rest => c.isDigit && py_digit_tail rest

/-- A valid Python integer digit sequence: non-empty, starts with a digit,
single underscores only between digits. -/
def py_int_digits : List Char → Bool
  | [] => false
  | c :: rest => c.isDigit && py_digit_tail rest

/-- Numeric value of a digit sequence, ignoring grouping underscores. -/
def digitsVal (cs : List Char) : Nat :=
  (cs.filter (fun c => c != '_')).foldl (fun a c => a * 10 + (c.toNat - 48)) 0

/-- Python `int(s)` on an already-stripped string: optional sign followed
by digits (with underscore grouping); `none` models `ValueError`. -/
def pyIntOfString (s : String) : Option Int :=
  match s.data with
  | '+' :: rest => if py_int_digits rest then some ((digitsVal rest : Int)) else none
  | '-' :: rest => if py_int_digits rest then some (-(digitsVal rest : Int)) else none
  | cs => if py_int_digits cs then some ((digitsVal cs : Int)) else none

/-!  ## `call_llm` (source lines 118–212)  -/

/-- `is_gpt5 = "gpt-5" in model.lower()` (source line 143). -/
def is_gpt5 (model : String) : Bool :=
  str_contains (py_lower model) "gpt-5"

/-- The `role: content` line built for one message when the transcript is
flattened for the responses API (source line 160). -/
def role_line (m : Message) : String :=
  m.role ++ ": " ++ m.content

/-- Source lines 154–160: a single message is passed as its bare content;
otherwise the messages are joined into one string of role-prefixed lines
separated by blank lines. -/
def flatten_messages : List Message → String
  | [m] => m.content
  | msgs => String.intercalate "\n\n" (msgs.map role_line)

/-- One part of a message item's `content` list in a GPT-5 response;
`text = none` models a part without a usable `text` attribute
(`hasattr(content, "text") and content.text is not None`, line 189). -/
structure ContentPart where
  text : Option String
deriving DecidableEq, Repr

/-- One item of `response.output` in a GPT-5 response.  `none` fields model
a missing attribute or an attribute holding `None` (the code probes them
with `hasattr` / `is not None`). -/
structure OutputItem where
  type : Option String
  content : Option (List ContentPart)
  text : Option String
deriving DecidableEq, Repr

/-- A GPT-5 `responses.create` response as the extraction code observes it:
the optional `output_text` convenience field, the optional `output` item
list, and its `str(...)` rendering used by the fallback (line 198). -/
structure GPT5Response where
  output_text : Option String
  output : Option (List OutputItem)
  str_repr : String
deriving DecidableEq, Repr

/-- Text contributed by one output item (loop body, source lines 183–193):
a `type == "message"` item contributes the text of each of its content
parts; any other item contributes its direct `text` attribute when that
exists and is not `None`. -/
def gpt5_item_text (item : OutputItem) : String :=
  if item.type = some "message" then
    match item.content with
    | some parts => String.join (parts.map (fun c => c.text.getD ""))
    | none => ""
  else
    match item.text with
    | some t => t
    | none => ""

/-- Accumulated text of `response.output` (source lines 181–193); the
empty string when `output` is missing or falsy. -/
def gpt5_output_items_text (r : GPT5Response) : String :=
  match r.output with
  | some items => if items.isEmpty then "" else String.join (items.map gpt5_item_text)
  | none => ""

/-- Source lines 195–200: after method 1 failed, return the accumulated
item text, or `str(response)` when it is empty. -/
def extract_gpt5_fallback (r : GPT5Response) : String :=
  let t := gpt5_output_items_text r
  if t = "" then r.str_repr else t

/-- The whole GPT-5 extraction (source lines 171–200): `output_text` when
present and non-empty, then the item accumulation, then `str(response)`. -/
def extract_gpt5_text (r : GPT5Response) : String :=
  match r.output_text with
  | some s => if s = "" then extract_gpt5_fallback r else s
  | none => extract_gpt5_fallback r

/-- `call_llm` (source lines 118–212).  The two network endpoints are
passed as oracles: `gpt5_endpoint input effort verbosity` stands for
`client.responses.create(model, input, reasoning, text)` and
`chat_endpoint model messages` stands for
`litellm.completion(...).choices[0].message.content`. -/
def call_llm (model : String) (messages : List Message) (config : Config)
    (gpt5_endpoint : String → String → String → GPT5Response)
    (chat_endpoint : String → List Message → String) : String :=
  if is_gpt5 model then
    extract_gpt5_text
      (gpt5_endpoint (flatten_messages messages) config.reasoning_effort config.verbosity)
  else
    chat_endpoint model messages

/-!  ## Configuration loading (source lines 28–115)  -/

/-- `load_openai_config` (source lines 28–91).  The environment (after
`load_dotenv`) is the function `env`; `os.getenv(k)` is `env k` and
`os.getenv(k, d)` is `(env k).getD d`.  Raising `ValueError` is modeled
as `Except.error` with the exception's message. -/
def load_openai_config (env : String → Option String) : Except String Config :=
  let openai_key := env "OPENAI_API_KEY"
  let model := (env "OPENAI_MODEL").getD "gpt-4o"
  let reasoning_effort := (env "OPENAI_REASONING_EFFORT").getD "medium"
  let verbosity := (env "OPENAI_VERBOSITY").getD "medium"
  if truthyStr openai_key = false then
    Except.error "OPENAI_API_KEY not found in environment variables"
  else
    Except.ok { api_key := openai_key.getD "", model := model, provider := "OpenAI",
                reasoning_effort := reasoning_effort, verbosity := verbosity }

/-- `setup_litellm` (source lines 94–115): its environment mutation and
flag setting are process-global I/O with no observable effect on the run's
data; the returned value is `config["model"]`. -/
def setup_litellm (config : Config) : String :=
  config.model

/-!  ## `write_multi_day_story` (source lines 215–364)

The per-run LLM behaviour is abstracted as an oracle
`llm : String → List Message → String`, standing for
`await call_llm(model, conversation_history, config)`; Python's salted
string `hash` is the ambient function `pyhash : String → Int`; the three
`datetime.now()` calls of one run are modeled by the single value `now`. -/

/-- `(hash(initial_prompt) % 365) - 180` (source line 245); Lean's `Int`
`%` is `Int.emod`, which agrees with Python's floored `%` for the positive
modulus 365. -/
def derived_offset (h : Int) : Int :=
  h % 365 - 180

/-- Source lines 244–246: the derived start date when none is supplied —
`datetime.now() + timedelta(days = (hash(initial_prompt) % 365) - 180)`. -/
def derive_start_date (now : PyDateTime) (pyhash : String → Int)
    (initial_prompt : String) : PyDateTime :=
  { now with day := now.day + derived_offset (pyhash initial_prompt) }

/-- Source lines 241–249: the start date is the derived one when
`story_start_date is None`, else the parsed user-supplied date (the
`strptime` call is embedded as receiving the already-parsed datetime). -/
def run_start_date (pyhash : String → Int) (now : PyDateTime)
    (initial_prompt : String) : Option PyDateTime → PyDateTime
  | none => derive_start_date now pyhash initial_prompt
  | some d => d

/-- Source lines 255–258: the output file name, defaulted from the
timestamp when not supplied. -/
def run_output_file (now : PyDateTime) : Option String → String
  | none => "story_openai_" ++ strftime_compact now ++ ".md"
  | some f => f

/-- The storyboard planning prompt (source lines 273–293), verbatim. -/
def storyboard_prompt_text (initial_prompt : String) (num_days : Int)
    (story_start_str : String) : String :=
  "Based on this story premise: \"" ++ initial_prompt ++ "\"\n\n" ++
  "Create a detailed storyboard and character profiles for a " ++ toString num_days ++
  "-day story starting on " ++ story_start_str ++ ".\n\n" ++
  "Please provide:\n\n" ++
  "1. **Character Profiles**: For each main character, include:\n" ++
  "   - Full name\n" ++
  "   - Age\n" ++
  "   - Birthday (specific date, make it realistic relative to their age)\n" ++
  "   - Brief backstory (2-3 sentences covering their background, personality, and what led them to this point)\n" ++
  "   - Key personality traits\n\n" ++
  "2. **Story Storyboard**: Create a high-level outline of what will happen across all " ++
  toString num_days ++ " days:\n" ++
  "   - Major plot points and events for each day\n" ++
  "   - Character development arcs\n" ++
  "   - Key conflicts and resolutions\n" ++
  "   - How the story builds and progresses day by day\n" ++
  "   - Emotional beats and turning points\n\n" ++
  "Format this as a structured plan that we'll follow when writing the full story. Be specific about what happens on which day, using actual dates starting from " ++
  story_start_str ++ "."

/-- The per-day narrative prompt (source lines 329–338), verbatim. -/
def day_prompt_text (day_num : Int) (date_str : String) : String :=
  "Now write the full narrative for Day " ++ toString day_num ++ " (" ++ date_str ++
  ") following the storyboard plan.\n\n" ++
  "Include:\n" ++
  "- Rich, detailed prose with character thoughts and emotions\n" ++
  "- Specific times and activities throughout the day (morning, afternoon, evening, night)\n" ++
  "- Dialogue that reveals character personalities\n" ++
  "- Sensory details and atmospheric descriptions\n" ++
  "- How events align with the character backstories and the overall storyboard\n\n" ++
  "Make this engaging literary fiction, not just a summary. Write it as a complete narrative section."

/-- State accumulated across the run: the event trace, the
`conversation_history` list and the `story_content` fragment list. -/
structure LoopState where
  events : List Event
  conversation_history : List Message
  story_content : List String
deriving DecidableEq, Repr

/-- The state after the storyboard call and the header fragments (source
lines 263–318): storyboard prompt and response in the transcript, then the
document header, metadata lines, planning section and story heading. -/
def init_state (call : List Message → String) (config : Config)
    (initial_prompt : String) (num_days : Int) (now : PyDateTime)
    (story_start_str : String) : LoopState :=
  let sp := storyboard_prompt_text initial_prompt num_days story_start_str
  let hist0 : List Message := [⟨"user", sp⟩]
  let storyboard_text := call hist0
  { events := [Event.modelCall hist0 storyboard_text],
    conversation_history := hist0 ++ [⟨"assistant", storyboard_text⟩],
    story_content :=
      ["# " ++ initial_prompt ++ "\n\n",
       "*Generated on " ++ strftime_iso now ++ "*  \n",
       "*Story Duration: " ++ toString num_days ++ " days*  \n",
       "*Story Start Date: " ++ story_start_str ++ "*  \n",
       "*Provider: " ++ config.provider ++ " | Model: " ++ config.model ++ "*\n\n",
       "---\n\n",
       "## Story Planning\n\n",
       storyboard_text ++ "\n\n",
       "---\n\n",
       "## The Story\n\n"] }

/-- One iteration of the day loop (source lines 322–356) for day number
`day_num`: build the dated prompt, call the model on the grown transcript,
and append the day header and narrative to the document. -/
def dayStep (call : List Message → String) (start_day : Int)
    (st : LoopState) (day_num : Int) : LoopState :=
  let current_date := start_day + (day_num - 1)
  let date_str := strftime_BdYA current_date
  let dp := day_prompt_text day_num date_str
  let hist := st.conversation_history ++ [⟨"user", dp⟩]
  let day_text := call hist
  { events := st.events ++ [Event.modelCall hist day_text],
    conversation_history := hist ++ [⟨"assistant", day_text⟩],
    story_content := st.story_content ++
      ["### Day " ++ toString day_num ++ ": " ++ date_str ++ "\n\n",
       day_text ++ "\n\n"] }

/-- The `for day_num in ...` loop: fold `dayStep` over the day numbers. -/
def runDays (call : List Message → String) (start_day : Int) :
    LoopState → List Int → LoopState
  | st, [] => st
  | st, d :: ds => runDays call start_day (dayStep call start_day st d) ds

/-- The day numbers `[1, ..., k]`, written in the snoc form the loop
invariants induct on. -/
def day_list : Nat → List Int
  | 0 => []
  | k + 1 => day_list k ++ [(k : Int) + 1]

/-- The day numbers `k+1, ..., k+m` (used to split a run after day `k`). -/
def day_suffix (k : Nat) : Nat → List Int
  | 0 => []
  | m + 1 => day_suffix k m ++ [(k : Int) + (m : Int) + 1]

/-- `range(1, num_days + 1)` from source line 322, as a list: empty when
`num_days ≤ 0`. -/
def day_range (num_days : Int) : List Int :=
  day_list num_days.toNat

/-- The loop state after the storyboard step and `k` completed days of a
run with parameters as in `write_multi_day_story`. -/
def run_state_after (config : Config) (pyhash : String → Int)
    (llm : String → List Message → String) (now : PyDateTime)
    (initial_prompt : String) (num_days : Int)
    (story_start_date : Option PyDateTime) (k : Nat) : LoopState :=
  let model := setup_litellm config
  let start_date := run_start_date pyhash now initial_prompt story_start_date
  runDays (llm model) start_date.day
    (init_state (llm model) config initial_prompt num_days now
      (strftime_BdY start_date.day))
    (day_list k)

/-- The result of one completed run. -/
structure RunResult where
  events : List Event
  conversation_history : List Message
  story_content : List String
  output_file : String
  written_text : String
deriving DecidableEq, Repr

/-- The run body after configuration loading succeeded (source lines
236–364): storyboard call, day loop, and the single
`output_path.write_text` of the concatenated fragments. -/
def write_multi_day_story_run (config : Config) (pyhash : String → Int)
    (llm : String → List Message → String) (now : PyDateTime)
    (initial_prompt : String) (num_days : Int)
    (output_file : Option String) (story_start_date : Option PyDateTime) :
    RunResult :=
  let stN := run_state_after config pyhash llm now initial_prompt num_days
    story_start_date num_days.toNat
  let out := run_output_file now output_file
  let full_text := String.join stN.story_content
  { events := stN.events ++ [Event.fileWrite out full_text],
    conversation_history := stN.conversation_history,
    story_content := stN.story_content,
    output_file := out,
    written_text := full_text }

/-- `write_multi_day_story` (source lines 215–364): load the configuration
(aborting with the `ValueError` when the API key is missing), then run the
storyboard-and-days body. -/
def write_multi_day_story (env : String → Option String)
    (pyhash : String → Int) (llm : String → List Message → String)
    (now : PyDateTime) (initial_prompt : String) (num_days : Int)
    (output_file : Option String) (story_start_date : Option PyDateTime) :
    Except String RunResult :=
  match load_openai_config env with
  | .error e => .error e
  | .ok config =>
      .ok (write_multi_day_story_run config pyhash llm now initial_prompt
        num_days output_file story_start_date)

/-!  ## `interactive_story_writer` (source lines 367–399)  -/

/-- The fallback premise used for empty interactive input (line 385). -/
def default_initial_prompt : String :=
  "A software developer discovers a mysterious bug that seems to change reality"

/-- Source lines 381–386: `input("> ").strip()`, replaced by the default
premise when falsy (empty). -/
def interactive_premise (raw : String) : String :=
  let s := py_strip raw
  if s = "" then default_initial_prompt else s

/-- Source lines 390–395: `int(input("> ").strip())`, replaced by 3 when
`int` raises `ValueError`. -/
def interactive_num_days (raw : String) : Int :=
  match pyIntOfString (py_strip raw) with
  | some n => n
  | none => 3

/-- `interactive_story_writer` (source lines 367–399): read the premise
and day count (with defaults) and run the driver with them. -/
def interactive_story_writer (env : String → Option String)
    (pyhash : String → Int) (llm : String → List Message → String)
    (now : PyDateTime) (premise_input daycount_input : String) :
    Except String RunResult :=
  write_multi_day_story env pyhash llm now
    (interactive_premise premise_input) (interactive_num_days daycount_input)
    none none

/-- The response generated for day `i + 1` (0-based `i`): the oracle
applied to the transcript of the first `i` days extended with the dated
prompt for day `i + 1`. -/
def run_day_response (config : Config) (pyhash : String → Int)
    (llm : String → List Message → String) (now : PyDateTime)
    (initial_prompt : String) (num_days : Int)
    (story_start_date : Option PyDateTime) (i : Nat) : String :=
  let model := setup_litellm config
  let sday := (run_start_date pyhash now initial_prompt story_start_date).day
  let st := run_state_after config pyhash llm now initial_prompt num_days
    story_start_date i
  llm model (st.conversation_history ++
    [⟨"user", day_prompt_text ((i : Int) + 1) (strftime_BdYA (sday + (i : Int)))⟩])

/-- The document fragments appended by the first `k` days: for each day
`i + 1`, its dated section header followed by its narrative. -/
def day_fragments (config : Config) (pyhash : String → Int)
    (llm : String → List Message → String) (now : PyDateTime)
    (initial_prompt : String) (num_days : Int)
    (story_start_date : Option PyDateTime) (k : Nat) : List String :=
  List.flatten ((List.range k).map (fun (i : Nat) =>
    ["### Day " ++ toString ((i : Int) + 1) ++ ": " ++
       strftime_BdYA ((run_start_date pyhash now initial_prompt story_start_date).day +
         (i : Int)) ++ "\n\n",
     run_day_response config pyhash llm now initial_prompt num_days
       story_start_date i ++ "\n\n"]))

/-!  ## Loop invariants  -/

theorem runDays_append (call : List Message → String) (sdy : Int)
    (st : LoopState) (l1 l2 : List Int) :
    runDays call sdy st (l1 ++ l2) = runDays call sdy (runDays call sdy st l1) l2 := by
  induction l1 generalizing st with
  | nil => rfl
  | cons d ds ih => simp [runDays, ih]

theorem run_state_after_succ (config : Config) (pyhash : String → Int)
    (llm : String → List Message → String) (now : PyDateTime)
    (p : String) (n : Int) (sd : Option PyDateTime) (k : Nat) :
    run_state_after config pyhash llm now p n sd (k + 1) =
      dayStep (llm (setup_litellm config)) (run_start_date pyhash now p sd).day
        (run_state_after config pyhash llm now p n sd k) ((k : Int) + 1) := by
  simp only [run_state_after, day_list, runDays_append, runDays]

theorem run_state_after_history_length (config : Config) (pyhash : String → Int)
    (llm : String → List Message → String) (now : PyDateTime)
    (p : String) (n : Int) (sd : Option PyDateTime) (k : Nat) :
    (run_state_after config pyhash llm now p n sd k).conversation_history.length =
      2 * k + 2 := by
  induction k with
  | zero => simp [run_state_after, day_list, runDays, init_state]
  | succ k ih =>
      rw [run_state_after_succ]
      simp only [dayStep, List.length_append, List.length_cons, List.length_nil]
      omega

theorem run_state_after_events_all (config : Config) (pyhash : String → Int)
    (llm : String → List Message → String) (now : PyDateTime)
    (p : String) (n : Int) (sd : Option PyDateTime) (k : Nat) :
    ∀ e ∈ (run_state_after config pyhash llm now p n sd k).events,
      e.isModelCall = true := by
  induction k with
  | zero =>
      simp [run_state_after, day_list, runDays, init_state, Event.isModelCall]
  | succ k ih =>
      rw [run_state_after_succ]
      simp only [dayStep, List.mem_append, List.mem_singleton]
      intro e he
      rcases he with he | he
      · exact ih e he
      · simp [he, Event.isModelCall]

theorem run_state_after_events_length (config : Config) (pyhash : String → Int)
    (llm : String → List Message → String) (now : PyDateTime)
    (p : String) (n : Int) (sd : Option PyDateTime) (k : Nat) :
    (run_state_after config pyhash llm now p n sd k).events.length = k + 1 := by
  induction k with
  | zero => simp [run_state_after, day_list, runDays, init_state]
  | succ k ih =>
      rw [run_state_after_succ]
      simp only [dayStep, List.length_append, List.length_cons, List.length_nil]
      omega

theorem string_join_cons (a : String) (l : List String) :
    String.join (a :: l) = a ++ String.join l := by
  have h : ∀ (m : List String) (b : String),
      m.foldl (· ++ ·) b = b ++ m.foldl (· ++ ·) "" := by
    intro m
    induction m with
    | nil => intro b; simp
    | cons y ys ih =>
        intro b
        simp only [List.foldl_cons]
        rw [ih (b ++ y), ih ("" ++ y)]
        simp [String.append_assoc]
  simp only [String.join, List.foldl_cons]
  rw [h l ("" ++ a)]
  simp

theorem day_fragments_succ (config : Config) (pyhash : String → Int)
    (llm : String → List Message → String) (now : PyDateTime)
    (p : String) (n : Int) (sd : Option PyDateTime) (k : Nat) :
    day_fragments config pyhash llm now p n sd (k + 1) =
      day_fragments config pyhash llm now p n sd k ++
        ["### Day " ++ toString ((k : Int) + 1) ++ ": " ++
           strftime_BdYA ((run_start_date pyhash now p sd).day + (k : Int)) ++ "\n\n",
         run_day_response config pyhash llm now p n sd k ++ "\n\n"] := by
  simp [day_fragments, List.range_succ]

theorem run_state_after_story (config : Config) (pyhash : String → Int)
    (llm : String → List Message → String) (now : PyDateTime)
    (p : String) (n : Int) (sd : Option PyDateTime) (k : Nat) :
    (run_state_after config pyhash llm now p n sd k).story_content =
      (run_state_after config pyhash llm now p n sd 0).story_content ++
        day_fragments config pyhash llm now p n sd k := by
  induction k with
  | zero => simp [day_fragments]
  | succ k ih =>
      rw [run_state_after_succ, day_fragments_succ]
      have hk : ((k : Int) + 1 - 1) = (k : Int) := by ring
      simp only [dayStep, hk, ih, run_day_response, List.append_assoc]

theorem day_list_add (k m : Nat) :
    day_list (k + m) = day_list k ++ day_suffix k m := by
  induction m with
  | zero => simp [day_suffix]
  | succ m ih =>
      show day_list ((k + m) + 1) = _
      simp [day_list, day_suffix, ih, List.append_assoc, Nat.cast_add]

theorem not_fileWrite_of_modelCall (e : Event) (h : e.isModelCall = true) :
    e.isFileWrite = false := by
  cases e <;> simp_all [Event.isModelCall, Event.isFileWrite]

theorem run_state_after_story_cons (config : Config) (pyhash : String → Int)
    (llm : String → List Message → String) (now : PyDateTime)
    (p : String) (n : Int) (sd : Option PyDateTime) :
    (run_state_after config pyhash llm now p n sd 0).story_content =
      ("# " ++ p ++ "\n\n") ::
        ((run_state_after config pyhash llm now p n sd 0).story_content.drop 1) := by
  simp [run_state_after, day_list, runDays, init_state]

/-!  ## Witness fixtures (a concrete environment, oracle and clock)  -/

/-- An environment holding only the API key. -/
def envEx : String → Option String :=
  fun k => if k == "OPENAI_API_KEY" then some "test-key" else none

/-- The configuration `load_openai_config` produces on `envEx`. -/
def cfgEx : Config :=
  { api_key := "test-key", model := "gpt-4o", provider := "OpenAI",
    reasoning_effort := "medium", verbosity := "medium" }

/-- A deterministic response oracle for witnesses. -/
def llmEx : String → List Message → String :=
  fun _ msgs => "reply " ++ toString msgs.length

/-- A stand-in for one process's string-hash function. -/
def hashEx : String → Int :=
  fun s => (s.length : Int)

/-- A fixed clock value (2025-07-31 12:30:45). -/
def nowEx : PyDateTime := ⟨20300, 12, 30, 45⟩

/-!  ## Claims  -/

/-- **C1.** For every premise and day count `N`, one run of the
story-generation driver `write_multi_day_story` performs exactly `N + 1`
model invocations — the storyboard call plus one call per day.  The run is
a total function producing one sequential event list, so there is no
branching or early exit once configuration loading has succeeded. -/
theorem c1_model_call_count (env : String → Option String) (config : Config)
    (pyhash : String → Int) (llm : String → List Message → String)
    (now : PyDateTime) (p : String) (N : Nat) (f : Option String)
    (sd : Option PyDateTime)
    (h : load_openai_config env = Except.ok config) :
    write_multi_day_story env pyhash llm now p (N : Int) f sd =
      Except.ok (write_multi_day_story_run config pyhash llm now p (N : Int) f sd) ∧
    ((write_multi_day_story_run config pyhash llm now p (N : Int) f sd).events.filter
        Event.isModelCall).length = N + 1 := by
  constructor
  · simp [write_multi_day_story, h]
  · have hN : ((N : Int)).toNat = N := by simp
    simp only [write_multi_day_story_run, hN, List.filter_append]
    rw [List.filter_eq_self.mpr
      (run_state_after_events_all config pyhash llm now p (N : Int) sd N)]
    simp [Event.isModelCall,
      run_state_after_events_length config pyhash llm now p (N : Int) sd N]

theorem c1_witness :
    write_multi_day_story envEx hashEx llmEx nowEx "A test premise"
        ((2 : Nat) : Int) none none =
      Except.ok (write_multi_day_story_run cfgEx hashEx llmEx nowEx
        "A test premise" ((2 : Nat) : Int) none none) ∧
    ((write_multi_day_story_run cfgEx hashEx llmEx nowEx "A test premise"
        ((2 : Nat) : Int) none none).events.filter Event.isModelCall).length = 2 + 1 :=
  c1_model_call_count envEx cfgEx hashEx llmEx nowEx "A test premise" 2 none none rfl

/-- **C2.** In a run of `N` days, the state reached after day `k` is an
actual intermediate state of the full run (the remaining days only fold on
top of it), and its `conversation_history` holds exactly `2 * k + 2`
entries: the storyboard prompt and response, then one prompt and one
response per completed day. -/
theorem c2_transcript_length (env : String → Option String) (config : Config)
    (pyhash : String → Int) (llm : String → List Message → String)
    (now : PyDateTime) (p : String) (N k : Nat) (f : Option String)
    (sd : Option PyDateTime) (hk : k ≤ N)
    (h : load_openai_config env = Except.ok config) :
    write_multi_day_story env pyhash llm now p (N : Int) f sd =
      Except.ok (write_multi_day_story_run config pyhash llm now p (N : Int) f sd) ∧
    run_state_after config pyhash llm now p (N : Int) sd N =
      runDays (llm (setup_litellm config)) (run_start_date pyhash now p sd).day
        (run_state_after config pyhash llm now p (N : Int) sd k)
        (day_suffix k (N - k)) ∧
    (run_state_after config pyhash llm now p (N : Int) sd k).conversation_history.length =
      2 * k + 2 := by
  refine ⟨by simp [write_multi_day_story, h], ?_,
    run_state_after_history_length config pyhash llm now p (N : Int) sd k⟩
  have hsplit : day_list N = day_list k ++ day_suffix k (N - k) := by
    have hkn : k + (N - k) = N := by omega
    rw [← day_list_add, hkn]
  simp only [run_state_after]
  rw [hsplit, runDays_append]

theorem c2_witness :
    write_multi_day_story envEx hashEx llmEx nowEx "A test premise"
        ((2 : Nat) : Int) none none =
      Except.ok (write_multi_day_story_run cfgEx hashEx llmEx nowEx
        "A test premise" ((2 : Nat) : Int) none none) ∧
    run_state_after cfgEx hashEx llmEx nowEx "A test premise" ((2 : Nat) : Int) none 2 =
      runDays (llmEx (setup_litellm cfgEx))
        (run_start_date hashEx nowEx "A test premise" none).day
        (run_state_after cfgEx hashEx llmEx nowEx "A test premise" ((2 : Nat) : Int) none 1)
        (day_suffix 1 (2 - 1)) ∧
    (run_state_after cfgEx hashEx llmEx nowEx "A test premise" ((2 : Nat) : Int) none
        1).conversation_history.length = 2 * 1 + 2 :=
  c2_transcript_length envEx cfgEx hashEx llmEx nowEx "A test premise" 2 1 none none
    (by decide) rfl

/-- **C3.** The document of an `N`-day run is the header block followed by
exactly `N` day sections in ascending day order: the fragment list is the
initial header fragments (whose first fragment is the premise heading
`# <premise>`) followed by, for each `i < N`, the day header
`### Day i+1: <date>` carrying the calendar date `start_date + i` days and
that day's narrative; the written file text starts with the premise
heading. -/
theorem c3_document_structure (env : String → Option String) (config : Config)
    (pyhash : String → Int) (llm : String → List Message → String)
    (now : PyDateTime) (p : String) (N : Nat) (f : Option String)
    (sd : Option PyDateTime)
    (h : load_openai_config env = Except.ok config) :
    write_multi_day_story env pyhash llm now p (N : Int) f sd =
      Except.ok (write_multi_day_story_run config pyhash llm now p (N : Int) f sd) ∧
    (run_state_after config pyhash llm now p (N : Int) sd N).story_content =
      (run_state_after config pyhash llm now p (N : Int) sd 0).story_content ++
        day_fragments config pyhash llm now p (N : Int) sd N ∧
    (run_state_after config pyhash llm now p (N : Int) sd 0).story_content.head? =
      some ("# " ++ p ++ "\n\n") ∧
    (write_multi_day_story_run config pyhash llm now p (N : Int) f sd).written_text =
      "# " ++ p ++ "\n\n" ++
        String.join
          ((run_state_after config pyhash llm now p (N : Int) sd N).story_content.drop 1) := by
  refine ⟨by simp [write_multi_day_story, h],
    run_state_after_story config pyhash llm now p (N : Int) sd N, ?_, ?_⟩
  · rw [run_state_after_story_cons]
    rfl
  · have hstory := run_state_after_story config pyhash llm now p (N : Int) sd N
    rw [run_state_after_story_cons config pyhash llm now p (N : Int) sd] at hstory
    have hN : ((N : Int)).toNat = N := by simp
    simp only [write_multi_day_story_run, hN]
    rw [hstory]
    simp [string_join_cons, String.append_assoc]

theorem c3_witness :
    write_multi_day_story envEx hashEx llmEx nowEx "A test premise"
        ((2 : Nat) : Int) none none =
      Except.ok (write_multi_day_story_run cfgEx hashEx llmEx nowEx
        "A test premise" ((2 : Nat) : Int) none none) ∧
    (run_state_after cfgEx hashEx llmEx nowEx "A test premise" ((2 : Nat) : Int) none
        2).story_content =
      (run_state_after cfgEx hashEx llmEx nowEx "A test premise" ((2 : Nat) : Int) none
          0).story_content ++
        day_fragments cfgEx hashEx llmEx nowEx "A test premise" ((2 : Nat) : Int) none 2 ∧
    (run_state_after cfgEx hashEx llmEx nowEx "A test premise" ((2 : Nat) : Int) none
        0).story_content.head? = some ("# " ++ "A test premise" ++ "\n\n") ∧
    (write_multi_day_story_run cfgEx hashEx llmEx nowEx "A test premise"
        ((2 : Nat) : Int) none none).written_text =
      "# " ++ "A test premise" ++ "\n\n" ++
        String.join
          ((run_state_after cfgEx hashEx llmEx nowEx "A test premise" ((2 : Nat) : Int)
              none 2).story_content.drop 1) :=
  c3_document_structure envEx cfgEx hashEx llmEx nowEx "A test premise" 2 none none rfl

/-- **C9.** In every run, the story document reaches storage exactly once:
the event trace is all the model calls followed by the single file write,
which happens after all `N + 1` model calls and carries the complete
concatenated document. -/
theorem c9_single_write_after_calls (env : String → Option String)
    (config : Config) (pyhash : String → Int)
    (llm : String → List Message → String) (now : PyDateTime) (p : String)
    (N : Nat) (f : Option String) (sd : Option PyDateTime)
    (h : load_openai_config env = Except.ok config) :
    write_multi_day_story env pyhash llm now p (N : Int) f sd =
      Except.ok (write_multi_day_story_run config pyhash llm now p (N : Int) f sd) ∧
    (write_multi_day_story_run config pyhash llm now p (N : Int) f sd).events.filter
        Event.isFileWrite =
      [Event.fileWrite
        (write_multi_day_story_run config pyhash llm now p (N : Int) f sd).output_file
        (write_multi_day_story_run config pyhash llm now p (N : Int) f sd).written_text] ∧
    (write_multi_day_story_run config pyhash llm now p (N : Int) f sd).events =
      ((write_multi_day_story_run config pyhash llm now p (N : Int) f sd).events.filter
          Event.isModelCall) ++
        [Event.fileWrite
          (write_multi_day_story_run config pyhash llm now p (N : Int) f sd).output_file
          (write_multi_day_story_run config pyhash llm now p (N : Int) f sd).written_text] ∧
    ((write_multi_day_story_run config pyhash llm now p (N : Int) f sd).events.filter
        Event.isModelCall).length = N + 1 ∧
    (write_multi_day_story_run config pyhash llm now p (N : Int) f sd).written_text =
      String.join
        (write_multi_day_story_run config pyhash llm now p (N : Int) f sd).story_content := by
  have hN : ((N : Int)).toNat = N := by simp
  have hall := run_state_after_events_all config pyhash llm now p (N : Int) sd N
  have hnw : ∀ e ∈ (run_state_after config pyhash llm now p (N : Int) sd N).events,
      ¬ (Event.isFileWrite e = true) := by
    intro e he
    simp [not_fileWrite_of_modelCall e (hall e he)]
  refine ⟨by simp [write_multi_day_story, h], ?_, ?_, ?_, ?_⟩
  · simp only [write_multi_day_story_run, hN, List.filter_append]
    rw [List.filter_eq_nil_iff.mpr hnw]
    simp [Event.isFileWrite]
  · simp only [write_multi_day_story_run, hN, List.filter_append]
    rw [List.filter_eq_self.mpr hall]
    simp [Event.isModelCall]
  · simp only [write_multi_day_story_run, hN, List.filter_append]
    rw [List.filter_eq_self.mpr hall]
    simp [Event.isModelCall,
      run_state_after_events_length config pyhash llm now p (N : Int) sd N]
  · simp [write_multi_day_story_run]

theorem c9_witness :
    write_multi_day_story envEx hashEx llmEx nowEx "A test premise"
        ((1 : Nat) : Int) none none =
      Except.ok (write_multi_day_story_run cfgEx hashEx llmEx nowEx
        "A test premise" ((1 : Nat) : Int) none none) ∧
    (write_multi_day_story_run cfgEx hashEx llmEx nowEx "A test premise"
        ((1 : Nat) : Int) none none).events.filter Event.isFileWrite =
      [Event.fileWrite
        (write_multi_day_story_run cfgEx hashEx llmEx nowEx "A test premise"
          ((1 : Nat) : Int) none none).output_file
        (write_multi_day_story_run cfgEx hashEx llmEx nowEx "A test premise"
          ((1 : Nat) : Int) none none).written_text] ∧
    (write_multi_day_story_run cfgEx hashEx llmEx nowEx "A test premise"
        ((1 : Nat) : Int) none none).events =
      ((write_multi_day_story_run cfgEx hashEx llmEx nowEx "A test premise"
          ((1 : Nat) : Int) none none).events.filter Event.isModelCall) ++
        [Event.fileWrite
          (write_multi_day_story_run cfgEx hashEx llmEx nowEx "A test premise"
            ((1 : Nat) : Int) none none).output_file
          (write_multi_day_story_run cfgEx hashEx llmEx nowEx "A test premise"
            ((1 : Nat) : Int) none none).written_text] ∧
    ((write_multi_day_story_run cfgEx hashEx llmEx nowEx "A test premise"
        ((1 : Nat) : Int) none none).events.filter Event.isModelCall).length = 1 + 1 ∧
    (write_multi_day_story_run cfgEx hashEx llmEx nowEx "A test premise"
        ((1 : Nat) : Int) none none).written_text =
      String.join
        (write_multi_day_story_run cfgEx hashEx llmEx nowEx "A test premise"
          ((1 : Nat) : Int) none none).story_content :=
  c9_single_write_after_calls envEx cfgEx hashEx llmEx nowEx "A test premise" 1 none none rfl

/-- An environment with no variables set at all. -/
def envNone : String → Option String := fun _ => none

/-- **C5.** A run with no (or an empty) `OPENAI_API_KEY` aborts with the
single distinguished configuration error — the `ValueError` text of
`load_openai_config` — before any model invocation: the aborted run's
result does not depend on the model oracle at all, and configuration
loading succeeds exactly when the key is truthy, with that `ValueError`
as its only error. -/
theorem c5_missing_api_key_aborts (env : String → Option String)
    (pyhash : String → Int) (llm : String → List Message → String)
    (now : PyDateTime) (p : String) (n : Int) (f : Option String)
    (sd : Option PyDateTime) :
    ((∃ c, load_openai_config env = Except.ok c) ↔
      truthyStr (env "OPENAI_API_KEY") = true) ∧
    (∀ e, load_openai_config env = Except.error e →
      e = "OPENAI_API_KEY not found in environment variables") ∧
    (truthyStr (env "OPENAI_API_KEY") = false →
      write_multi_day_story env pyhash llm now p n f sd =
        Except.error "OPENAI_API_KEY not found in environment variables" ∧
      ∀ llm2, write_multi_day_story env pyhash llm now p n f sd =
        write_multi_day_story env pyhash llm2 now p n f sd) := by
  refine ⟨⟨?_, ?_⟩, ?_, ?_⟩
  · rintro ⟨c, hc⟩
    by_contra hne
    have hf : truthyStr (env "OPENAI_API_KEY") = false := by
      simpa using hne
    simp [load_openai_config, hf] at hc
  · intro ht
    exact ⟨{ api_key := (env "OPENAI_API_KEY").getD "",
             model := (env "OPENAI_MODEL").getD "gpt-4o",
             provider := "OpenAI",
             reasoning_effort := (env "OPENAI_REASONING_EFFORT").getD "medium",
             verbosity := (env "OPENAI_VERBOSITY").getD "medium" },
           by simp [load_openai_config, ht]⟩
  · intro e he
    by_cases ht : truthyStr (env "OPENAI_API_KEY") = true
    · simp [load_openai_config, ht] at he
    · have hf : truthyStr (env "OPENAI_API_KEY") = false := by
        simpa using ht
      simp [load_openai_config, hf] at he
      exact he.symm
  · intro hf
    constructor
    · simp [write_multi_day_story, load_openai_config, hf]
    · intro llm2
      simp [write_multi_day_story, load_openai_config, hf]

theorem c5_witness :
    truthyStr (envNone "OPENAI_API_KEY") = false ∧
    write_multi_day_story envNone hashEx llmEx nowEx "A test premise" 3 none none =
      Except.error "OPENAI_API_KEY not found in environment variables" :=
  ⟨rfl,
    ((c5_missing_api_key_aborts envNone hashEx llmEx nowEx "A test premise" 3 none
      none).2.2 rfl).1⟩

/-- **C4** (code bug): the derived start date is a function of the ambient
Python string-hash function, which CPython salts with a fresh random seed
in every interpreter process (PYTHONHASHSEED).  Two runs on the same
calendar day, with the same premise, therefore derive different start
dates whenever their processes' hash functions differ on the premise —
contradicting the source comment "Hash ensures same prompt always gets
same date (reproducible)".  Shown at two concrete per-process hash
functions differing on the premise. -/
theorem c4_start_date_process_dependent :
    derive_start_date ⟨0, 0, 0, 0⟩ (fun _ => 0) "A test premise" ≠
      derive_start_date ⟨0, 0, 0, 0⟩ (fun _ => 1) "A test premise" := by
  decide

/-- **C6** counterexample: a premise whose per-process hash is congruent
to 364 modulo 365 gets the derived day offset 184, outside the claimed
interval `[-180, 180]`. -/
theorem c6_counterexample :
    derived_offset 364 = 184 ∧ ¬ (derived_offset 364 ≤ 180) ∧
    (derive_start_date ⟨0, 0, 0, 0⟩ (fun _ => 364) "A test premise").day = 184 := by
  refine ⟨by decide, by decide, by decide⟩

/-- **C6 (amended).** For every premise and hash function, the derived
start date lies within `[-180, 184]` days of the current date: the offset
`(hash(premise) % 365) - 180` satisfies `-180 ≤ offset ≤ 184` (not the
claimed symmetric `±180` window, since `hash % 365` ranges over
`0..364`). -/
theorem c6_offset_window (pyhash : String → Int) (now : PyDateTime) (p : String) :
    -180 ≤ (derive_start_date now pyhash p).day - now.day ∧
    (derive_start_date now pyhash p).day - now.day ≤ 184 := by
  have h1 : 0 ≤ pyhash p % 365 := Int.emod_nonneg _ (by norm_num)
  have h2 : pyhash p % 365 < 365 := Int.emod_lt_of_pos _ (by norm_num)
  simp only [derive_start_date, derived_offset]
  constructor <;> omega

/-- The extraction as claim C7 words it, for comparison with the code:
method 2 concatenates the text parts of *message-type items only* (no
contribution from other items with a direct text field). -/
def gpt5_item_text_claimed (item : OutputItem) : String :=
  if item.type = some "message" then
    match item.content with
    | some parts => String.join (parts.map (fun c => c.text.getD ""))
    | none => ""
  else ""

/-- Method 2 of the claimed extraction: message-type items only. -/
def gpt5_output_items_text_claimed (r : GPT5Response) : String :=
  match r.output with
  | some items =>
      if items.isEmpty then "" else String.join (items.map gpt5_item_text_claimed)
  | none => ""

/-- The claimed extraction after method 1 failed. -/
def extract_gpt5_fallback_claimed (r : GPT5Response) : String :=
  let t := gpt5_output_items_text_claimed r
  if t = "" then r.str_repr else t

/-- The three-stage extraction exactly as claim C7 describes it. -/
def extract_gpt5_text_claimed (r : GPT5Response) : String :=
  match r.output_text with
  | some s => if s = "" then extract_gpt5_fallback_claimed r else s
  | none => extract_gpt5_fallback_claimed r

/-- A response with no `output_text` whose only output item is a
non-message (reasoning) item carrying a direct `text` field. -/
def gpt5ReasoningOnlyResponse : GPT5Response :=
  { output_text := none,
    output := some [{ type := some "reasoning", content := none, text := some "R" }],
    str_repr := "STR" }

/-- **C7** counterexample: on a response whose only output item is a
non-message item with a direct text field, the code returns that text
(the `elif` branch of the item loop), while the claimed
"filtered to message-type items" extraction would fall through to the
stringified fallback.  The two extractions disagree at this input. -/
theorem c7_counterexample :
    extract_gpt5_text gpt5ReasoningOnlyResponse = "R" ∧
    extract_gpt5_text_claimed gpt5ReasoningOnlyResponse = "STR" ∧
    extract_gpt5_text gpt5ReasoningOnlyResponse ≠
      extract_gpt5_text_claimed gpt5ReasoningOnlyResponse := by
  refine ⟨rfl, rfl, by decide⟩

/-- **C7 (amended).** `call_llm` extracts the reasoning-convention
response text by trying, in order: (1) the direct `output_text` field if
present and non-empty (Python truthiness); (2) the concatenation over the
typed output items in order, where a message-type item contributes the
concatenated text parts of its content and a non-message item contributes
its direct text field when present; (3) the stringified fallback of the
whole response if both previous methods yield nothing. -/
theorem c7_extraction_order (r : GPT5Response) :
    extract_gpt5_text r =
      (if truthyStr r.output_text = true then r.output_text.getD ""
       else if gpt5_output_items_text r = "" then r.str_repr
       else gpt5_output_items_text r) ∧
    (∀ (parts : List ContentPart) (t : Option String),
      gpt5_item_text ⟨some "message", some parts, t⟩ =
        String.join (parts.map (fun c => c.text.getD ""))) ∧
    (∀ (c : Option (List ContentPart)) (t : String),
      gpt5_item_text ⟨some "reasoning", c, some t⟩ = t) := by
  refine ⟨?_, fun parts t => rfl, fun c t => rfl⟩
  cases hot : r.output_text with
  | none => simp [extract_gpt5_text, extract_gpt5_fallback, truthyStr, hot]
  | some s =>
      by_cases hs : s = ""
      · simp [extract_gpt5_text, extract_gpt5_fallback, truthyStr, hot, hs]
      · simp [extract_gpt5_text, extract_gpt5_fallback, truthyStr, hot, hs]

/-- **C8** counterexample: a singleton transcript — exactly the shape of
the storyboard call, the first call of every run — is passed as its bare
content, not as a joined list of role-prefixed lines. -/
theorem c8_counterexample :
    flatten_messages [⟨"user", "hi"⟩] = "hi" ∧
    String.intercalate "\n\n" (List.map role_line [⟨"user", "hi"⟩]) = "user: hi" ∧
    flatten_messages [⟨"user", "hi"⟩] ≠
      String.intercalate "\n\n" (List.map role_line [⟨"user", "hi"⟩]) := by
  refine ⟨rfl, rfl, by decide⟩

/-- **C8 (amended).** Under the reasoning convention, a transcript with at
least two entries is flattened into one input string by joining the
role-prefixed lines `role: content`, one per transcript entry, with blank
lines; a singleton transcript is instead passed as its sole entry's bare
content. -/
theorem c8_flattening (model : String) (messages : List Message)
    (config : Config) (gpt5_endpoint : String → String → String → GPT5Response)
    (chat_endpoint : String → List Message → String)
    (hg : is_gpt5 model = true) (hl : 2 ≤ messages.length) :
    call_llm model messages config gpt5_endpoint chat_endpoint =
      extract_gpt5_text
        (gpt5_endpoint (String.intercalate "\n\n" (messages.map role_line))
          config.reasoning_effort config.verbosity) ∧
    (∀ m : Message, flatten_messages [m] = m.content) := by
  refine ⟨?_, fun m => rfl⟩
  cases messages with
  | nil => simp at hl
  | cons m1 tl =>
      cases tl with
      | nil => simp at hl
      | cons m2 rest => simp [call_llm, hg, flatten_messages]

/-- A two-entry transcript for the C8 witness. -/
def msgsEx : List Message := [⟨"user", "a"⟩, ⟨"assistant", "b"⟩]

/-- A reasoning endpoint that echoes its input into `output_text`. -/
def gpt5EpEx : String → String → String → GPT5Response :=
  fun input _ _ => { output_text := some input, output := none, str_repr := "" }

/-- A chat endpoint with a fixed reply. -/
def chatEpEx : String → List Message → String := fun _ _ => "chat"

theorem c8_witness :
    is_gpt5 "gpt-5" = true ∧ 2 ≤ msgsEx.length ∧
    (call_llm "gpt-5" msgsEx cfgEx gpt5EpEx chatEpEx =
      extract_gpt5_text
        (gpt5EpEx (String.intercalate "\n\n" (msgsEx.map role_line))
          cfgEx.reasoning_effort cfgEx.verbosity) ∧
    (∀ m : Message, flatten_messages [m] = m.content)) :=
  ⟨rfl, by decide,
    c8_flattening "gpt-5" msgsEx cfgEx gpt5EpEx chatEpEx rfl (by decide)⟩

/-- **C10.** In interactive mode, an empty or whitespace-only premise
input is replaced by the fixed default premise, and a day-count input that
`int` cannot parse is replaced by the default of 3 days; the run then
proceeds as a normal driver run with those defaults instead of aborting. -/
theorem c10_interactive_defaults (env : String → Option String)
    (pyhash : String → Int) (llm : String → List Message → String)
    (now : PyDateTime) (premise_input daycount_input : String)
    (hp : py_strip premise_input = "")
    (hd : pyIntOfString (py_strip daycount_input) = none) :
    interactive_premise premise_input = default_initial_prompt ∧
    interactive_num_days daycount_input = 3 ∧
    interactive_story_writer env pyhash llm now premise_input daycount_input =
      write_multi_day_story env pyhash llm now default_initial_prompt 3 none none := by
  have h1 : interactive_premise premise_input = default_initial_prompt := by
    simp [interactive_premise, hp]
  have h2 : interactive_num_days daycount_input = 3 := by
    simp [interactive_num_days, hd]
  exact ⟨h1, h2, by rw [interactive_story_writer, h1, h2]⟩

theorem c10_witness :
    py_strip " \t " = "" ∧
    pyIntOfString (py_strip " five ") = none ∧
    (interactive_premise " \t " = default_initial_prompt ∧
     interactive_num_days " five " = 3 ∧
     interactive_story_writer envEx hashEx llmEx nowEx " \t " " five " =
       write_multi_day_story envEx hashEx llmEx nowEx default_initial_prompt 3
         none none) :=
  ⟨rfl, rfl, c10_interactive_defaults envEx hashEx llmEx nowEx " \t " " five " rfl rfl⟩
